import Mathlib

/-! # MCP-Excel-Manager frontend: a shallow embedding and its checked properties

The development embeds the JavaScript sources of the chat client

* `frontend/src/services/api.js` (`unwrapError`, `sendChatMessage`),
* `frontend/src/components/Chat.jsx` (`handleSend`, `handleEnter`, the send button),
* `frontend/src/App.jsx` (the three output slots),
* `frontend/src/components/DataTable.jsx` (`DataTable`, `formatValue`),
* `frontend/src/components/DataChart.jsx` (`DataChart`)

as Lean functions over a small model of JavaScript values, and proves the
properties of the specification against them.

Modelling conventions.

* A JavaScript value is a `JSValue`: JSON data and `undefined`. A number is given by what
  the client observes of it (`JSNumber`); strings are sequences of Unicode scalar values.
* An object is the list of its own enumerable properties in the order in which
  `Object.keys` enumerates them. The members every object inherits from
  `Object.prototype`, and the Unicode case tables, belong to the JavaScript engine and are
  parameters (`Engine`).
* A conversion that throws a `TypeError` yields `none`.
* An `async` function is split at its `await`: the part before it, and the part that
  runs once the awaited promise has settled.
* `null` as the result of a component is `none`.
-/

namespace CRM

/-! ## JavaScript values -/

/-- Decimal digits of a natural number, most significant first (`fuel` bounds the count). -/
def natDigits : Nat → Nat → List Char
  | 0, _ => []
  | fuel + 1, n =>
    if n < 10 then [Char.ofNat (48 + n)]
    else natDigits fuel (n / 10) ++ [Char.ofNat (48 + n % 10)]

/-- A JavaScript number, given by the three things the client observes of it. The number
1.5 is `⟨false, true, "1.5"⟩`, the number 1e21 is `⟨false, true, "1e+21"⟩`, and `NaN` is
`⟨true, false, "NaN"⟩`. Every number has such a triple, and the theorems hold for every
triple. -/
structure JSNumber where
  /-- Whether it is falsy: `+0`, `-0` or `NaN`. -/
  falsy : Bool
  /-- Whether it is finite; `JSON.stringify` writes `null` for `NaN` and the infinities. -/
  finite : Bool
  /-- What `Number.prototype.toString` returns for it. -/
  text : String
deriving DecidableEq

/-- The number `n`, for a count below 10^21 (an array or string length, a small literal):
such a number prints as its decimal digits. -/
def JSNumber.ofNat (n : Nat) : JSNumber :=
  { falsy := n == 0, finite := true, text := ⟨natDigits (n + 1) n⟩ }

/-- JavaScript values as they occur in the client: JSON data plus `undefined`. -/
inductive JSValue where
  | undefined : JSValue
  | null : JSValue
  | bool (b : Bool) : JSValue
  | num (n : JSNumber) : JSValue
  | str (s : String) : JSValue
  | arr (items : List JSValue) : JSValue
  | obj (props : List (String × JSValue)) : JSValue

/-- A record: the own properties of a plain object, in key order. -/
abbrev Record := List (String × JSValue)

namespace JSValue

/-- ToBoolean: which values pass an `if (v)` test. -/
def truthy : JSValue → Bool
  | undefined => false
  | null => false
  | bool b => b
  | num n => !n.falsy
  | str s => !s.data.isEmpty
  | arr _ => true
  | obj _ => true

/-- Values on which a member access throws and an optional chain short-circuits. -/
def nullish : JSValue → Bool
  | undefined => true
  | null => true
  | _ => false

/-- Strict equality with a string constant: `v === "s"`. -/
def isString (v : JSValue) (s : String) : Bool :=
  match v with
  | str t => t == s
  | _ => false

end JSValue

open JSValue

/-- Own-property lookup `props[k]`; an absent key reads as `undefined`. -/
def lookupProp (k : String) : Record → JSValue
  | [] => undefined
  | (k', v) :: rest => if k' = k then v else lookupProp k rest

/-- Whether the record has an own property named `k`. -/
def hasOwn (k : String) (props : Record) : Bool :=
  props.any fun p => p.1 == k

/-- Number of UTF-16 code units of a string, its `length` in JavaScript. -/
def utf16Length (s : String) : Nat :=
  (s.data.map fun c => if c.val < 0x10000 then 1 else 2).sum

/-- Reading `v.k`, for the keys the sources spell out (`response`, `data`, `error`,
`detail`, `reply`, `length`), on a value that is neither `null` nor `undefined`: none of
these keys names a member of `Object.prototype`, so the read is an own-property read, and
arrays and strings answer `length`. -/
def getProp (v : JSValue) (k : String) : JSValue :=
  match v with
  | obj props => lookupProp k props
  | arr items => if k = "length" then num (JSNumber.ofNat items.length) else undefined
  | str s => if k = "length" then num (JSNumber.ofNat (utf16Length s)) else undefined
  | _ => undefined

/-- The value thrown by a member access on `null` or `undefined`: a `TypeError`, which has
no `response` property. -/
def typeError : JSValue :=
  obj [("name", str "TypeError"), ("message", str "Cannot read properties of undefined")]

/-- Member access `v.k`: throws a `TypeError` on `null` and `undefined`. -/
def member (v : JSValue) (k : String) : Except JSValue JSValue :=
  if nullish v then .error typeError else .ok (getProp v k)

/-- Optional chaining `v?.k`: `undefined` on `null` and `undefined`, `v.k` otherwise. -/
def optChain (v : JSValue) (k : String) : JSValue :=
  if nullish v then undefined else getProp v k

/-! ## `services/api.js` -/

/-- The error extractor of `api.js`:
```
function unwrapError(error) {
  if (error?.response?.data?.error) return error.response.data.error;
  if (error?.response?.data?.detail) return error.response.data.detail;
  return "Unexpected error";
}
```
-/
def unwrapError (error : JSValue) : Except JSValue JSValue :=
  if truthy (optChain (optChain (optChain error "response") "data") "error") then
    member error "response" >>= fun r => member r "data" >>= fun d => member d "error"
  else if truthy (optChain (optChain (optChain error "response") "data") "detail") then
    member error "response" >>= fun r => member r "data" >>= fun d => member d "detail"
  else
    .ok (str "Unexpected error")

/-! ## Strings and conversions -/

/-- The characters `String.prototype.trim` strips: ECMAScript WhiteSpace (TAB, VT, FF,
ZWNBSP and the Unicode space separators) and LineTerminator (LF, CR, LS, PS). -/
def isWhiteSpace (c : Char) : Bool :=
  c.val.toNat ∈ [0x09, 0x0A, 0x0B, 0x0C, 0x0D, 0x20, 0xA0, 0x1680, 0x2028, 0x2029, 0x202F,
    0x205F, 0x3000, 0xFEFF] || (0x2000 ≤ c.val.toNat && c.val.toNat ≤ 0x200A)

/-- The method `String.prototype.trim`: strips leading and trailing white space. -/
def trim (s : String) : String :=
  ⟨((s.data.dropWhile isWhiteSpace).reverse.dropWhile isWhiteSpace).reverse⟩

mutual
/-- The characters of ToString, as applied by `"Error: " + v`; `none` when the conversion
throws. A plain object gives `[object Object]` through the inherited `toString`, unless it
has an own `toString` member: that one is data, not callable, and the conversion throws a
`TypeError`. An array joins the strings of its elements with commas. -/
def toChars : JSValue → Option (List Char)
  | undefined => some "undefined".data
  | null => some "null".data
  | .bool b => some (if b then "true".data else "false".data)
  | num n => some n.text.data
  | str s => some s.data
  | arr items => joinItems items
  | obj props => if hasOwn "toString" props then none else some "[object Object]".data
/-- The method `Array.prototype.join` with the separator `,`: `null` and `undefined`
elements give the empty string, the others their ToString. -/
def joinItems : List JSValue → Option (List Char)
  | [] => some []
  | [v] =>
    match v with
    | undefined => some []
    | null => some []
    | w => toChars w
  | v :: w :: rest =>
    match (match v with
      | undefined => some []
      | null => some []
      | u => toChars u), joinItems (w :: rest) with
    | some a, some b => some (a ++ ',' :: b)
    | _, _ => none
end

/-- ToString as a string; `none` when it throws. -/
def toStr (v : JSValue) : Option String := (toChars v).map String.mk

/-- Lower-case hexadecimal digit. -/
def hexDigit (d : Nat) : Char :=
  if d < 10 then Char.ofNat (48 + d) else Char.ofNat (87 + d)

/-- Escape of one character inside a JSON string (QuoteJSONString). -/
def escapeChar (c : Char) : List Char :=
  let bs := Char.ofNat 92
  if c.val.toNat = 34 then [bs, Char.ofNat 34]
  else if c.val.toNat = 92 then [bs, bs]
  else if c.val.toNat = 8 then [bs, 'b']
  else if c.val.toNat = 9 then [bs, 't']
  else if c.val.toNat = 10 then [bs, 'n']
  else if c.val.toNat = 12 then [bs, 'f']
  else if c.val.toNat = 13 then [bs, 'r']
  else if c.val.toNat < 32 then
    [bs, 'u', '0', '0', hexDigit (c.val.toNat / 16), hexDigit (c.val.toNat % 16)]
  else [c]

/-- A string as a JSON string literal. -/
def quoteJSON (s : String) : List Char :=
  Char.ofNat 34 :: (s.data.flatMap escapeChar) ++ [Char.ofNat 34]

mutual
/-- The text `JSON.stringify` produces for a value, without indentation (the abstract
operation SerializeJSONProperty); `none` is the result `undefined`. -/
def serialize : JSValue → Option (List Char)
  | undefined => none
  | null => some "null".data
  | .bool b => some (if b then "true".data else "false".data)
  | num n => some (if n.finite then n.text.data else "null".data)
  | str s => some (quoteJSON s)
  | arr items => some ('[' :: [','].intercalate (serializeItems items) ++ [']'])
  | obj props =>
    some (Char.ofNat 123 :: [','].intercalate (serializeProps props) ++ [Char.ofNat 125])
/-- The serialized elements of an array: an `undefined` element is written `null`. -/
def serializeItems : List JSValue → List (List Char)
  | [] => []
  | v :: rest => (serialize v).getD "null".data :: serializeItems rest
/-- The serialized `key:value` members of an object: a property whose value is
`undefined` is left out. -/
def serializeProps : List (String × JSValue) → List (List Char)
  | [] => []
  | (k, v) :: rest =>
    match serialize v with
    | none => serializeProps rest
    | some t => (quoteJSON k ++ ':' :: t) :: serializeProps rest
end

/-- The call `JSON.stringify(value)`; `none` is the result `undefined`. -/
def JSONstringify (value : JSValue) : Option String := (serialize value).map String.mk

/-- What reading a member of a record yields: a data value (`undefined` when there is no
such member), or a built-in function inherited from `Object.prototype`, given by the text
its `toString()` returns. -/
inductive Member where
  | value (v : JSValue) : Member
  | builtin (source : String) : Member

/-- What the sources take from the JavaScript engine and do not contain themselves. -/
structure Engine where
  /-- The full upper-case mapping (Unicode Default Case Conversion) of a code point
  outside ASCII: one or more code points, as in `ß` to `SS`. -/
  upperCase : Char → List Char
  /-- The member of `Object.prototype` named `k`, which a plain object lacking an own `k`
  inherits; `none` when `Object.prototype` has no member of that name. -/
  inherited : String → Option Member

/-- Upper-casing of an ASCII character: `a` to `z` become `A` to `Z`. -/
def asciiUpper (c : Char) : Char :=
  if 97 ≤ c.val.toNat ∧ c.val.toNat ≤ 122 then Char.ofNat (c.val.toNat - 32) else c

/-- The method `String.prototype.toUpperCase`: every code point is replaced by its full
upper-case mapping. -/
def toUpperCase (E : Engine) (s : String) : String :=
  ⟨s.data.flatMap fun c => if c.val.toNat < 128 then [asciiUpper c] else E.upperCase c⟩

/-- The call `s.replace(/_/g, " ")`: every underscore becomes a space. -/
def replaceUnderscores (s : String) : String :=
  ⟨s.data.map fun c => if c = '_' then ' ' else c⟩

/-! ## `services/api.js`: the gateway -/

/-- A request handed to the HTTP client by `api.post(url, body)`. -/
structure Request where
  url : String
  body : JSValue

/-- How the promise returned by `api.post` settles. -/
inductive Settlement where
  | fulfilled (res : JSValue) : Settlement
  | rejected (e : JSValue) : Settlement

/-- The request of `sendChatMessage(message)`: `api.post("/chat", { message })`. -/
def chatRequest (message : String) : Request :=
  { url := "/chat", body := obj [("message", str message)] }

/-- The statement `throw unwrapError(e)`. -/
def throwUnwrapped (e : JSValue) : Except JSValue JSValue :=
  match unwrapError e with
  | .ok v => .error v
  | .error t => .error t

/-- The gateway of `api.js`, given the behaviour `post` of the HTTP client:
```
export async function sendChatMessage(message) {
  try {
    const res = await api.post("/chat", { message });
    return res.data.reply;
  } catch (e) {
    throw unwrapError(e);
  }
}
```
The result is `.ok reply` when the promise fulfils and `.error v` when it rejects
with `v`. -/
def sendChatMessage (post : Request → Settlement) (message : String) :
    Except JSValue JSValue :=
  match post (chatRequest message) with
  | .fulfilled res =>
    match member res "data" >>= fun d => member d "reply" with
    | .ok reply => .ok reply
    | .error e => throwUnwrapped e
  | .rejected e => throwUnwrapped e

/-! ## `App.jsx` and `components/Chat.jsx`: state and handlers -/

/-- The state cells of `App` (`chatResult`, `tableData`, `chartData`) and of `Chat`
(`message`, `loading`). -/
structure UI where
  message : String
  loading : Bool
  chatResult : JSValue
  tableData : List Record
  chartData : List Record

/-- The initial values given to `useState` in `App` and `Chat`. -/
def UI.initial : UI :=
  { message := "", loading := false, chatResult := str "", tableData := [], chartData := [] }

/-- The part of `handleSend` before its `await`:
```
if (!message.trim()) return;
setLoading(true);
... await sendChatMessage(message)
```
`none` is the early return; otherwise the state at the `await` and the argument given to
`sendChatMessage`. -/
def handleSendBegin (s : UI) : Option (UI × String) :=
  if !truthy (str (trim s.message)) then none
  else some ({ s with loading := true }, s.message)

/-- The `try`/`catch` statement of `handleSend`, resumed when `sendChatMessage` has
settled:
```
  const reply = await sendChatMessage(message);
  onChatResponse(reply);
  onDataTable([]);
  onChartData([]);
} catch (error) {
  onChatResponse("Error: " + error);
}
```
where `App` passes `setChatResult`, `setTableData` and `setChartData` as the three
callbacks. The result is `none` when the statement itself throws: the concatenation in the
`catch` block throws a `TypeError` for an `error` that has no string form. -/
def handleSendTry (s : UI) (outcome : Except JSValue JSValue) : Option UI :=
  match outcome with
  | .ok reply => some { s with chatResult := reply, tableData := [], chartData := [] }
  | .error error =>
    match toStr error with
    | some text => some { s with chatResult := str ("Error: " ++ text) }
    | none => none

/-- The part of `handleSend` after its `await`: the `try`/`catch` statement and then
```
setMessage("");
setLoading(false);
```
There is no `finally`: when the `catch` block throws, `handleSend` ends there and the two
setters do not run. -/
def handleSendResume (s : UI) (outcome : Except JSValue JSValue) : UI :=
  match handleSendTry s outcome with
  | some s1 => { s1 with message := "", loading := false }
  | none => s

/-- One whole run of `handleSend` against an HTTP client behaving as `post`: the final
state and the requests issued. -/
def handleSend (post : Request → Settlement) (s : UI) : UI × List Request :=
  match handleSendBegin s with
  | none => (s, [])
  | some (s1, message) =>
    (handleSendResume s1 (sendChatMessage post message), [chatRequest message])

/-! ## The event loop of one `Chat` instance -/

/-- The component between two events: its state and the arguments of the
`sendChatMessage` calls that have been made and have not yet settled, oldest first. -/
structure Machine where
  ui : UI
  pending : List String

/-- The freshly mounted component. -/
def Machine.initial : Machine := { ui := UI.initial, pending := [] }

/-- What can happen to the component. -/
inductive Event where
  /-- The user edits the textarea: `onChange` with the new value. -/
  | change (value : String) : Event
  /-- A key goes down in the textarea: `onKeyDown` with `e.key` and `e.shiftKey`. -/
  | keyDown (key : String) (shiftKey : Bool) : Event
  /-- The user clicks the send button. -/
  | click : Event
  /-- The HTTP request of the `i`-th outstanding call settles. -/
  | settle (i : Nat) (r : Settlement) : Event

/-- Invoking `handleSend` from an event handler: it runs up to its `await`. -/
def Machine.send (m : Machine) : Machine :=
  match handleSendBegin m.ui with
  | none => m
  | some (s1, message) => { ui := s1, pending := m.pending ++ [message] }

/-- The key handler of the textarea:
```
function handleEnter(e) {
  if (e.key === "Enter" && !e.shiftKey) {
    e.preventDefault();
    handleSend();
  }
}
```
-/
def handleEnter (m : Machine) (key : String) (shiftKey : Bool) : Machine :=
  if key == "Enter" && !shiftKey then m.send else m

/-- The send button, `<button disabled={loading} onClick={handleSend}>`: a disabled
button dispatches no click. -/
def clickSend (m : Machine) : Machine :=
  if m.ui.loading then m else m.send

/-- One event. -/
def step (m : Machine) : Event → Machine
  | .change value => { m with ui := { m.ui with message := value } }
  | .keyDown key shiftKey => handleEnter m key shiftKey
  | .click => clickSend m
  | .settle i r =>
    match m.pending.get? i with
    | none => m
    | some message =>
      { ui := handleSendResume m.ui (sendChatMessage (fun _ => r) message),
        pending := m.pending.eraseIdx i }

/-- A sequence of events, in order. -/
def run (m : Machine) (events : List Event) : Machine :=
  events.foldl step m

/-- Events that submit through the keyboard: Enter without shift. -/
def Event.isEnterSubmit : Event → Bool
  | .keyDown key shiftKey => key == "Enter" && !shiftKey
  | _ => false

/-! ## Rendered output -/

/-- The element tree a component returns: text, or an element with its props and
children. React `key` props are bookkeeping and are left out. -/
inductive Html where
  | text (s : String) : Html
  | element (tag : String) (props : List (String × JSValue)) (children : List Html) : Html

namespace Html

/-- The children of an element. -/
def children : Html → List Html
  | text _ => []
  | element _ _ cs => cs

/-- The tag of an element (none for text). -/
def tag? : Html → Option String
  | text _ => none
  | element t _ _ => some t

/-- The children that are elements with the given tag, in order. -/
def childrenTagged (t : String) (h : Html) : List Html :=
  h.children.filter fun c => c.tag? == some t

mutual
/-- The concatenated text of a tree. -/
def textContent : Html → List Char
  | text s => s.data
  | element _ _ cs => textContents cs
/-- The concatenated text of a forest. -/
def textContents : List Html → List Char
  | [] => []
  | c :: cs => textContent c ++ textContents cs
end

mutual
/-- All elements of a tree whose tag is in `tags`, in document order. -/
def elementsTagged (tags : List String) : Html → List Html
  | text _ => []
  | element t ps cs =>
    (if tags.contains t then [element t ps cs] else []) ++ elementsTaggedIn tags cs
/-- All elements of a forest whose tag is in `tags`, in document order. -/
def elementsTaggedIn (tags : List String) : List Html → List Html
  | [] => []
  | c :: cs => elementsTagged tags c ++ elementsTaggedIn tags cs
end

end Html

open Html

/-! ## `components/DataTable.jsx` -/

/-- The cell formatter of `DataTable.jsx`:
```
function formatValue(value) {
  if (value === null || value === undefined) return "";
  if (typeof value === "object") return JSON.stringify(value);
  return value.toString();
}
```
The first line answers `null` and `undefined`; `typeof` is "object" for arrays and objects,
for which `JSON.stringify` returns a string; the values left are booleans, numbers,
strings and functions, each with the `toString` of its prototype. -/
def formatValue : Member → String
  | .value null => ""
  | .value undefined => ""
  | .value (arr items) => (JSONstringify (arr items)).getD ""
  | .value (obj props) => (JSONstringify (obj props)).getD ""
  | .value (.bool b) => if b then "true" else "false"
  | .value (num n) => n.text
  | .value (str s) => s
  | .builtin source => source

/-- The call `Object.keys(record)`. -/
def objectKeys (record : Record) : List String :=
  record.map Prod.fst

/-- The read `row[col]` on a record: the own property when there is one, the member
inherited from `Object.prototype` otherwise, `undefined` when there is neither. -/
def readMember (E : Engine) (row : Record) (col : String) : Member :=
  if hasOwn col row then .value (lookupProp col row)
  else (E.inherited col).getD (.value undefined)

/-- The component `DataTable({ rows })`, with `rows` absent (`none`) or a sequence of
records:
```
if (!rows || rows.length === 0) return null;
const columns = Object.keys(rows[0]);
return (
  <div className="data-table"><table>
    <thead><tr>
      {columns.map((col) => (<th>{col.replace(/_/g, " ").toUpperCase()}</th>))}
    </tr></thead>
    <tbody>
      {rows.map((row, idx) => (
        <tr>{columns.map((col) => (<td>{formatValue(row[col])}</td>))}</tr>))}
    </tbody>
  </table></div>);
```
-/
def DataTable (E : Engine) (rows : Option (List Record)) : Option Html :=
  match rows with
  | none => none
  | some [] => none
  | some (first :: rest) =>
    let columns := objectKeys first
    some (element "div" [("className", str "data-table")] [
      element "table" [] [
        element "thead" [] [
          element "tr" []
            (columns.map fun col =>
              element "th" [] [text (toUpperCase E (replaceUnderscores col))])],
        element "tbody" []
          ((first :: rest).map fun row =>
            element "tr" []
              (columns.map fun col =>
                element "td" [] [text (formatValue (readMember E row col))]))]])

/-- The labels of the header cells of a rendered table, in order. -/
def headerLabels (h : Html) : List String :=
  (elementsTagged ["th"] h).map fun th => ⟨textContent th⟩

/-- The cell texts of the body rows of a rendered table, row by row. -/
def bodyCells (h : Html) : List (List String) :=
  ((elementsTagged ["tbody"] h).flatMap (childrenTagged "tr")).map fun tr =>
    (childrenTagged "td" tr).map fun td => ⟨textContent td⟩

/-! ## `components/DataChart.jsx` -/

/-- The props of `DataChart`; an absent prop is `undefined`, `data` is absent (`none`,
for `undefined` and `null` alike) or a sequence of records. -/
structure ChartProps where
  data : Option (List Record)
  xKey : JSValue
  yKey : JSValue
  type : JSValue

/-- A default parameter value: it replaces `undefined` only. -/
def withDefault (v d : JSValue) : JSValue :=
  match v with
  | undefined => d
  | w => w

/-- The sequence of records as a JavaScript array. -/
def rowsValue (rows : List Record) : JSValue :=
  arr (rows.map obj)

/-- The parts shared by both chart kinds: grid, axes, tooltip. -/
def chartFrame (xKey yKey : JSValue) : List Html :=
  [element "CartesianGrid" [("strokeDasharray", str "3 3")] [],
   element "XAxis" [("dataKey", xKey)] [],
   element "YAxis" [("dataKey", yKey)] [],
   element "Tooltip" [] []]

/-- The component `DataChart({ data = [], xKey, yKey, type = "bar" })`:
```
if (!data?.length) return null;
if (!xKey || !yKey) return <p>Chart requires xKey and yKey.</p>;
return (
  <div style=...><ResponsiveContainer>
    {type === "line" ? (
      <LineChart data={data}> ... <Line type="monotone" dataKey={yKey} stroke="#007aff" />
      </LineChart>
    ) : (
      <BarChart data={data}> ... <Bar dataKey={yKey} fill="#007aff" /></BarChart>
    )}
  </ResponsiveContainer></div>);
```
-/
def DataChart (props : ChartProps) : Option Html :=
  let data := props.data.getD []
  let type := withDefault props.type (str "bar")
  if !truthy (optChain (rowsValue data) "length") then none
  else if !truthy props.xKey || !truthy props.yKey then
    some (element "p" [] [text "Chart requires xKey and yKey."])
  else
    some (element "div"
      [("style", obj [("width", str "100%"), ("height", str "350px"),
        ("marginTop", str "14px")])] [
      element "ResponsiveContainer" [] [
        if isString type "line" then
          element "LineChart" [("data", rowsValue data)]
            (chartFrame props.xKey props.yKey ++
              [element "Line" [("type", str "monotone"), ("dataKey", props.yKey),
                ("stroke", str "#007aff")] []])
        else
          element "BarChart" [("data", rowsValue data)]
            (chartFrame props.xKey props.yKey ++
              [element "Bar" [("dataKey", props.yKey), ("fill", str "#007aff")] []])]])

/-- The series elements drawn in a rendered chart. -/
def seriesOf (h : Html) : List Html :=
  elementsTagged ["Line", "Bar"] h

/-- The chart containers in a rendered tree. -/
def chartsOf (h : Html) : List Html :=
  elementsTagged ["LineChart", "BarChart"] h


/-- The state of the guarded path: no call is outstanding, or exactly one is and the
in-flight flag is set. -/
def SingleFlight (m : Machine) : Prop :=
  m.pending = [] ∨ (m.ui.loading = true ∧ ∃ x, m.pending = [x])

/-! # Theorems -/

/-! ## Lemmas on member access -/

theorem nullish_of_truthy {v : JSValue} (h : truthy v = true) : nullish v = false := by
  cases v <;> simp_all [truthy, nullish]

theorem optChain_of_nullish {v : JSValue} (k : String) (h : nullish v = true) :
    optChain v k = undefined := by
  simp [optChain, h]

theorem member_of_not_nullish {v : JSValue} (k : String) (h : nullish v = false) :
    member v k = .ok (optChain v k) := by
  simp [member, optChain, h]

theorem base_not_nullish {v : JSValue} {k : String} (h : truthy (optChain v k) = true) :
    nullish v = false := by
  cases hv : nullish v
  · rfl
  · rw [optChain_of_nullish k hv] at h
    simp [truthy] at h

/-- When the optional chain `error?.response?.data?.k` is truthy, the plain chain
`error.response.data.k` does not throw and reads the same value. -/
theorem member_chain_of_truthy (error : JSValue) (k : String)
    (h : truthy (optChain (optChain (optChain error "response") "data") k) = true) :
    (member error "response" >>= fun r => member r "data" >>= fun d => member d k)
      = .ok (optChain (optChain (optChain error "response") "data") k) := by
  have hd := base_not_nullish h
  have hr : nullish (optChain error "response") = false := by
    cases hv : nullish (optChain error "response")
    · rfl
    · rw [optChain_of_nullish "data" hv] at hd
      simp [nullish] at hd
  have he : nullish error = false := by
    cases hv : nullish error
    · rfl
    · rw [optChain_of_nullish "response" hv] at hr
      simp [nullish] at hr
  rw [member_of_not_nullish "response" he]
  show (member (optChain error "response") "data" >>= fun d => member d k) = _
  rw [member_of_not_nullish "data" hr]
  show member (optChain (optChain error "response") "data") k = _
  rw [member_of_not_nullish k hd]

/-- The extractor `unwrapError` never throws. -/
theorem unwrapError_total (e : JSValue) : ∃ v, unwrapError e = .ok v := by
  unfold unwrapError
  split
  · next h => exact ⟨_, member_chain_of_truthy e "error" h⟩
  · split
    · next h => exact ⟨_, member_chain_of_truthy e "detail" h⟩
    · exact ⟨_, rfl⟩

/-- A rejected request makes the gateway throw what `unwrapError` extracts. -/
theorem sendChatMessage_rejected (post : Request → Settlement) (message : String)
    (e v : JSValue) (hpost : post (chatRequest message) = .rejected e)
    (hv : unwrapError e = .ok v) : sendChatMessage post message = .error v := by
  simp [sendChatMessage, hpost, throwUnwrapped, hv]

/-! ## Lemmas on trimming -/

/-- A message made of white space only trims to the empty string. -/
theorem trim_of_all_whiteSpace (s : String) (h : ∀ c ∈ s.data, isWhiteSpace c = true) :
    truthy (str (trim s)) = false := by
  have h1 : s.data.dropWhile isWhiteSpace = [] := by
    rw [List.dropWhile_eq_nil_iff]
    exact h
  simp [truthy, trim, h1]

/-- The early return of `handleSend`. -/
theorem handleSendBegin_blank (s : UI) (h : truthy (str (trim s.message)) = false) :
    handleSendBegin s = none := by
  simp [handleSendBegin, h]

/-- The state in which `handleSend` waits for the gateway. -/
theorem handleSendBegin_nonblank (s : UI) (h : truthy (str (trim s.message)) = true) :
    handleSendBegin s = some ({ s with loading := true }, s.message) := by
  simp [handleSendBegin, h]

/-! ## C1: the fallback order of `unwrapError` -/

/-- C1, as stated, fails: the payload `{ error: "", detail: "Bad request" }` carries an
`error` field, yet `unwrapError` returns the `detail` value and not the (empty) value of
the `error` field. -/
theorem unwrapError_empty_error_field :
    hasOwn "error" [("error", str ""), ("detail", str "Bad request")] = true ∧
    unwrapError (obj [("response", obj [("data",
        obj [("error", str ""), ("detail", str "Bad request")])])])
      = .ok (str "Bad request") ∧
    unwrapError (obj [("response", obj [("data",
        obj [("error", str ""), ("detail", str "Bad request")])])])
      ≠ .ok (lookupProp "error" [("error", str ""), ("detail", str "Bad request")]) := by
  refine ⟨by decide, ?_, ?_⟩
  · simp [unwrapError, optChain, member, getProp, lookupProp, nullish, truthy, bind,
      Except.bind]
  · simp [unwrapError, optChain, member, getProp, lookupProp, nullish, truthy, bind,
      Except.bind]

/-- C1, amended: for every failure value `e`, with `d` standing for `e?.response?.data`:
if `d.error` is truthy the result is that value, whatever `d.detail` is; if `d.error` is
falsy (absent, null, empty, zero, false) and `d.detail` is truthy the result is the value
of `d.detail`; if both are falsy (which includes an `e` without response or data) the
result is the string "Unexpected error". In no case does `unwrapError` throw. -/
theorem unwrapError_fallback_order (e : JSValue) :
    (truthy (optChain (optChain (optChain e "response") "data") "error") = true →
      unwrapError e = .ok (optChain (optChain (optChain e "response") "data") "error")) ∧
    (truthy (optChain (optChain (optChain e "response") "data") "error") = false →
      truthy (optChain (optChain (optChain e "response") "data") "detail") = true →
      unwrapError e = .ok (optChain (optChain (optChain e "response") "data") "detail")) ∧
    (truthy (optChain (optChain (optChain e "response") "data") "error") = false →
      truthy (optChain (optChain (optChain e "response") "data") "detail") = false →
      unwrapError e = .ok (str "Unexpected error")) := by
  refine ⟨?_, ?_, ?_⟩
  · intro h
    rw [unwrapError, if_pos h]
    exact member_chain_of_truthy e "error" h
  · intro h1 h2
    rw [unwrapError, if_neg (by simp [h1]), if_pos h2]
    exact member_chain_of_truthy e "detail" h2
  · intro h1 h2
    rw [unwrapError, if_neg (by simp [h1]), if_neg (by simp [h2])]

/-- Witness for C1 (amended): the three tiers at concrete payloads. -/
theorem unwrapError_fallback_order_witness :
    unwrapError (obj [("response", obj [("data",
        obj [("error", str "Backend down"), ("detail", str "ignored")])])])
      = .ok (str "Backend down") ∧
    unwrapError (obj [("response", obj [("data", obj [("detail", str "Not found")])])])
      = .ok (str "Not found") ∧
    unwrapError (obj [("message", str "Network Error")]) = .ok (str "Unexpected error") :=
  ⟨(unwrapError_fallback_order _).1 (by decide),
   (unwrapError_fallback_order _).2.1 (by decide) (by decide),
   (unwrapError_fallback_order _).2.2 (by decide) (by decide)⟩

/-! ## One run of `handleSend` -/

/-- The result of `handleSend` on a message that does not trim to the empty string. -/
theorem handleSend_nonblank (post : Request → Settlement) (s : UI)
    (h : truthy (str (trim s.message)) = true) :
    handleSend post s =
      (handleSendResume { s with loading := true } (sendChatMessage post s.message),
        [chatRequest s.message]) := by
  simp [handleSend, handleSendBegin_nonblank s h]

/-- Invoking `handleSend` either returns at once or marks the turn in flight and adds one
outstanding call, for the buffer's content. -/
theorem send_cases (m : Machine) :
    (truthy (str (trim m.ui.message)) = false ∧ m.send = m) ∨
    (truthy (str (trim m.ui.message)) = true ∧
      m.send = { ui := { m.ui with loading := true },
                 pending := m.pending ++ [m.ui.message] }) := by
  cases h : truthy (str (trim m.ui.message))
  · left
    exact ⟨rfl, by simp [Machine.send, handleSendBegin_blank m.ui h]⟩
  · right
    exact ⟨rfl, by simp [Machine.send, handleSendBegin_nonblank m.ui h]⟩

/-- No event writes anything but the empty list to the table-rows and chart-data slots. -/
theorem step_slots_empty (m : Machine) (e : Event)
    (ht : m.ui.tableData = []) (hc : m.ui.chartData = []) :
    (step m e).ui.tableData = [] ∧ (step m e).ui.chartData = [] := by
  have hsend : m.send.ui.tableData = [] ∧ m.send.ui.chartData = [] := by
    rcases send_cases m with ⟨_, h⟩ | ⟨_, h⟩ <;> rw [h] <;> exact ⟨ht, hc⟩
  cases e with
  | change value => exact ⟨ht, hc⟩
  | keyDown key shiftKey =>
    simp only [step, handleEnter]
    split
    · exact hsend
    · exact ⟨ht, hc⟩
  | click =>
    simp only [step, clickSend]
    split
    · exact ⟨ht, hc⟩
    · exact hsend
  | settle i r =>
    simp only [step]
    split
    · exact ⟨ht, hc⟩
    · simp only [handleSendResume, handleSendTry]
      split
      · next s1 heq =>
        split at heq
        · cases heq
          exact ⟨rfl, rfl⟩
        · split at heq
          · cases heq
            exact ⟨ht, hc⟩
          · cases heq
      · exact ⟨ht, hc⟩

/-- Every run of the event loop from a state with empty table-rows and chart-data slots,
the mounted component in particular, leaves both slots empty. -/
theorem run_slots_empty (events : List Event) (m : Machine)
    (ht : m.ui.tableData = []) (hc : m.ui.chartData = []) :
    (run m events).ui.tableData = [] ∧ (run m events).ui.chartData = [] := by
  induction events generalizing m with
  | nil => exact ⟨ht, hc⟩
  | cons e rest ih =>
    have hstep := step_slots_empty m e ht hc
    exact ih (step m e) hstep.1 hstep.2

/-! ## C2: the table and chart slots after a failed call -/

/-- C2 fails on the code: with one row in the table-rows slot and one in the chart-data
slot, the message "hi" and a gateway call that fails with a network error, both rows are
still in place once `handleSend` has completed. The chat-text slot shows the error, the
input buffer and the in-flight flag are cleared: only the reset of the two slots, which
the success branch performs, is missing from the `catch` branch. -/
theorem handleSend_failure_keeps_slots :
    (handleSend (fun _ => .rejected (obj [("message", str "Network Error")]))
        { message := "hi", loading := false, chatResult := str "",
          tableData := [[("a", num (JSNumber.ofNat 1))]],
          chartData := [[("x", num (JSNumber.ofNat 2))]] })
      = ({ message := "", loading := false, chatResult := str "Error: Unexpected error",
           tableData := [[("a", num (JSNumber.ofNat 1))]],
           chartData := [[("x", num (JSNumber.ofNat 2))]] },
         [{ url := "/chat", body := obj [("message", str "hi")] }]) ∧
    (handleSend (fun _ => .fulfilled (obj [("data", obj [("reply", str "ok")])]))
        { message := "hi", loading := false, chatResult := str "",
          tableData := [[("a", num (JSNumber.ofNat 1))]],
          chartData := [[("x", num (JSNumber.ofNat 2))]] }).1
      = { message := "", loading := false, chatResult := str "ok",
          tableData := [], chartData := [] } := by
  exact ⟨rfl, rfl⟩

/-! ## C4: the message handed to the gateway -/

/-- C4, as stated, fails: for the buffer content " hi " the request carries " hi ", with
its leading and trailing space, and not the trimmed "hi". -/
theorem handleSend_sends_untrimmed :
    (handleSend (fun _ => .fulfilled (obj [("data", obj [("reply", str "ok")])]))
        { UI.initial with message := " hi " }).2
      = [{ url := "/chat", body := obj [("message", str " hi ")] }] ∧
    trim " hi " = "hi" ∧ " hi " ≠ trim " hi " ∧
    (" hi ".data.head?.map isWhiteSpace) = some true := by
  refine ⟨rfl, by decide, by decide, by decide⟩

/-- C4, amended: for every message that is non-empty after trimming, `handleSend` issues
the request `POST /chat` whose `message` field is the input buffer's content exactly as
it stands, untrimmed; trimming serves the emptiness test only. -/
theorem handleSend_sends_buffer (post : Request → Settlement) (s : UI)
    (hmsg : truthy (str (trim s.message)) = true) :
    (handleSend post s).2 = [{ url := "/chat", body := obj [("message", str s.message)] }] ∧
    (handleSend post s).2.map (fun r => getProp r.body "message") = [str s.message] := by
  rw [handleSend_nonblank post s hmsg]
  exact ⟨rfl, by simp [chatRequest, getProp, lookupProp]⟩

/-- Witness for C4 (amended): the buffer " hi " goes out as " hi ". -/
theorem handleSend_sends_buffer_witness :
    (handleSend (fun _ => .rejected undefined) { UI.initial with message := " hi " }).2.map
      (fun r => getProp r.body "message") = [str " hi "] :=
  (handleSend_sends_buffer (fun _ => .rejected undefined)
    { UI.initial with message := " hi " } (by decide)).2

/-! ## C5: blank messages -/

/-- C5: for every message that is empty or consists of white space only, `handleSend`
issues no request and returns the state as it was (input buffer, in-flight flag and the
three output slots); the same holds when it is triggered by the Enter key or by the send
button in the event loop, where no call becomes outstanding. -/
theorem handleSend_blank (post : Request → Settlement) (m : Machine)
    (h : ∀ c ∈ m.ui.message.data, isWhiteSpace c = true) :
    handleSend post m.ui = (m.ui, []) ∧
    step m (.keyDown "Enter" false) = m ∧ step m .click = m := by
  have hb := handleSendBegin_blank m.ui (trim_of_all_whiteSpace _ h)
  have hsend : m.send = m := by simp [Machine.send, hb]
  refine ⟨by simp [handleSend, hb], ?_, ?_⟩
  · simp [step, handleEnter, hsend]
  · simp [step, clickSend, hsend]

/-- Witness for C5: the message of two spaces, with content in every slot. -/
theorem handleSend_blank_witness :
    handleSend (fun _ => .fulfilled (obj [("data", obj [("reply", str "never")])]))
        { message := "  ", loading := false, chatResult := str "old",
          tableData := [[("a", num (JSNumber.ofNat 1))]], chartData := [[("x", num (JSNumber.ofNat 2))]] }
      = ({ message := "  ", loading := false, chatResult := str "old",
           tableData := [[("a", num (JSNumber.ofNat 1))]], chartData := [[("x", num (JSNumber.ofNat 2))]] }, []) :=
  (handleSend_blank _
    { ui := { message := "  ", loading := false, chatResult := str "old",
              tableData := [[("a", num (JSNumber.ofNat 1))]], chartData := [[("x", num (JSNumber.ofNat 2))]] },
      pending := [] } (by decide)).1

/-! ## C7: a successful turn -/

/-- C7: for every message that is non-empty after trimming, every reply string `r`
returned by the gateway and every prior content of the three output slots, after
`handleSend` the chat-text slot is `r` and the table-rows and chart-data slots are
empty. -/
theorem handleSend_success (post : Request → Settlement) (s : UI) (r : String)
    (hmsg : truthy (str (trim s.message)) = true)
    (hreply : sendChatMessage post s.message = .ok (str r)) :
    (handleSend post s).1.chatResult = str r ∧
    (handleSend post s).1.tableData = [] ∧ (handleSend post s).1.chartData = [] := by
  rw [handleSend_nonblank post s hmsg, hreply]
  exact ⟨rfl, rfl, rfl⟩

/-- Witness for C7: the message "Hello" answered by `{ reply: "Hi there" }`, with
content in every slot beforehand. -/
theorem handleSend_success_witness :
    (handleSend (fun _ => .fulfilled (obj [("data", obj [("reply", str "Hi there")])]))
        { message := "Hello", loading := false, chatResult := str "old",
          tableData := [[("a", num (JSNumber.ofNat 1))]], chartData := [[("x", num (JSNumber.ofNat 2))]] }).1.chatResult
      = str "Hi there" ∧
    (handleSend (fun _ => .fulfilled (obj [("data", obj [("reply", str "Hi there")])]))
        { message := "Hello", loading := false, chatResult := str "old",
          tableData := [[("a", num (JSNumber.ofNat 1))]], chartData := [[("x", num (JSNumber.ofNat 2))]] }).1.tableData = [] ∧
    (handleSend (fun _ => .fulfilled (obj [("data", obj [("reply", str "Hi there")])]))
        { message := "Hello", loading := false, chatResult := str "old",
          tableData := [[("a", num (JSNumber.ofNat 1))]], chartData := [[("x", num (JSNumber.ofNat 2))]] }).1.chartData = [] :=
  handleSend_success _ _ "Hi there" (by decide) rfl

/-! ## C8: a failed turn -/

/-- The join of an array with at least two elements: the first element's text, a comma,
the join of the rest. -/
theorem toChars_arr_cons (u w : JSValue) (rest : List JSValue) :
    toChars (arr (u :: w :: rest)) =
      (if nullish u then some [] else toChars u).bind fun a =>
        (toChars (arr (w :: rest))).map fun b => a ++ ',' :: b := by
  have key : ∀ (x : Option (List Char)),
      (match x, joinItems (w :: rest) with
        | some a, some b => some (a ++ ',' :: b)
        | _, _ => none) =
      x.bind fun a => (joinItems (w :: rest)).map fun b => a ++ ',' :: b := by
    intro x
    cases x <;> cases joinItems (w :: rest) <;> rfl
  cases u <;> simp only [toChars, joinItems, nullish] <;> exact key _

/-- C8, as stated, fails: for the rejection `{ response: { data: { error: { toString: 1 }
} } }` the extracted value is the object `{ toString: 1 }`, which has no string form;
the concatenation in the `catch` block throws, the chat-text slot keeps its prior content
(the empty string of the mounted component) and is not "Error: " followed by anything. -/
theorem handleSend_failure_without_text :
    unwrapError (obj [("response", obj [("data",
        obj [("error", obj [("toString", num (JSNumber.ofNat 1))])])])])
      = .ok (obj [("toString", num (JSNumber.ofNat 1))]) ∧
    toStr (obj [("toString", num (JSNumber.ofNat 1))]) = none ∧
    (handleSend
        (fun _ => .rejected (obj [("response", obj [("data",
          obj [("error", obj [("toString", num (JSNumber.ofNat 1))])])])]))
        { UI.initial with message := "Hello" }).1.chatResult = str "" ∧
    ¬ ∃ t : String,
      (handleSend
        (fun _ => .rejected (obj [("response", obj [("data",
          obj [("error", obj [("toString", num (JSNumber.ofNat 1))])])])]))
        { UI.initial with message := "Hello" }).1.chatResult = str ("Error: " ++ t) := by
  refine ⟨rfl, rfl, rfl, ?_⟩
  rintro ⟨t, ht⟩
  have h1 : str "" = str ("Error: " ++ t) := ht
  have h2 : "" = "Error: " ++ t := by injection h1
  have h3 := congrArg String.length h2
  simp [String.length_append] at h3
  have h4 : ("Error: ").length = 7 := by decide
  omega

/-- C8, amended: for every message that is non-empty after trimming, when the request
rejects with a failure value `e`, `unwrapError e` yields a value `v`, and whenever `v` has
a string form the chat-text slot after `handleSend` is the string "Error: " followed by
that string form. The string form is the string itself for a string, the number's text for
a number, `true` or `false` for a boolean, `[object Object]` for an object without an own
`toString` member, and for an array the comma-separated string forms of its elements
(empty for `null` and `undefined` elements); an object with an own `toString` member has
none. -/
theorem handleSend_failure_text (post : Request → Settlement) (s : UI) (e : JSValue)
    (hmsg : truthy (str (trim s.message)) = true)
    (hrej : post (chatRequest s.message) = .rejected e) :
    (∃ v, unwrapError e = .ok v) ∧
    (∀ v text, unwrapError e = .ok v → toStr v = some text →
      (handleSend post s).1.chatResult = str ("Error: " ++ text)) ∧
    (∀ t, unwrapError e = .ok (str t) →
      (handleSend post s).1.chatResult = str ("Error: " ++ t)) ∧
    ((∀ v, toStr v = (toChars v).map String.mk) ∧
      (∀ t, toStr (str t) = some t) ∧
      (∀ n, toStr (num n) = some n.text) ∧
      toStr (.bool true) = some "true" ∧ toStr (.bool false) = some "false" ∧
      toStr null = some "null" ∧ toStr undefined = some "undefined" ∧
      (∀ props, hasOwn "toString" props = false →
        toStr (obj props) = some "[object Object]") ∧
      (∀ props, hasOwn "toString" props = true → toStr (obj props) = none) ∧
      toChars (arr []) = some [] ∧
      (∀ w, toChars (arr [w]) = if nullish w then some [] else toChars w) ∧
      (∀ u w rest, toChars (arr (u :: w :: rest)) =
        (if nullish u then some [] else toChars u).bind fun a =>
          (toChars (arr (w :: rest))).map fun b => a ++ ',' :: b)) := by
  have hgen : ∀ v text, unwrapError e = .ok v → toStr v = some text →
      (handleSend post s).1.chatResult = str ("Error: " ++ text) := by
    intro v text hv htext
    rw [handleSend_nonblank post s hmsg,
      sendChatMessage_rejected post s.message e v hrej hv]
    simp [handleSendResume, handleSendTry, htext]
  refine ⟨unwrapError_total e, hgen, fun t ht => hgen (str t) t ht rfl,
    fun _ => rfl, fun _ => rfl, fun _ => rfl, rfl, rfl, rfl, rfl, ?_, ?_, rfl, ?_,
    toChars_arr_cons⟩
  · intro props h
    simp [toStr, toChars, h]
  · intro props h
    simp [toStr, toChars, h]
  · intro w
    cases w <;> simp [toChars, joinItems, nullish]

/-- Witness for C8 (amended): a rejection carrying `response.data.error = "Backend down"`
gives "Error: Backend down"; a rejection with no error or detail field gives
"Error: Unexpected error"; a `detail` that is the number 404, or a list of two objects,
gives "Error: 404" and "Error: [object Object],[object Object]". -/
theorem handleSend_failure_text_witness :
    (handleSend
        (fun _ => .rejected (obj [("response", obj [("data",
          obj [("error", str "Backend down")])])]))
        { UI.initial with message := "Hello" }).1.chatResult = str "Error: Backend down" ∧
    (handleSend (fun _ => .rejected (obj [("message", str "Network Error")]))
        { UI.initial with message := "Hello" }).1.chatResult
      = str "Error: Unexpected error" ∧
    (handleSend
        (fun _ => .rejected (obj [("response", obj [("data",
          obj [("detail", num (JSNumber.ofNat 404))])])]))
        { UI.initial with message := "Hello" }).1.chatResult = str "Error: 404" ∧
    (handleSend
        (fun _ => .rejected (obj [("response", obj [("data",
          obj [("detail", arr [obj [("msg", str "field required")],
            obj [("msg", str "too long")]])])])]))
        { UI.initial with message := "Hello" }).1.chatResult
      = str "Error: [object Object],[object Object]" :=
  ⟨(handleSend_failure_text _ { UI.initial with message := "Hello" }
      (obj [("response", obj [("data", obj [("error", str "Backend down")])])])
      (by decide) rfl).2.2.1 "Backend down" rfl,
   (handleSend_failure_text _ { UI.initial with message := "Hello" }
      (obj [("message", str "Network Error")]) (by decide) rfl).2.1
      (str "Unexpected error") "Unexpected error" rfl rfl,
   (handleSend_failure_text _ { UI.initial with message := "Hello" }
      (obj [("response", obj [("data", obj [("detail", num (JSNumber.ofNat 404))])])])
      (by decide) rfl).2.1 (num (JSNumber.ofNat 404)) "404" rfl rfl,
   (handleSend_failure_text _ { UI.initial with message := "Hello" }
      (obj [("response", obj [("data",
        obj [("detail", arr [obj [("msg", str "field required")],
          obj [("msg", str "too long")]])])])])
      (by decide) rfl).2.1
      (arr [obj [("msg", str "field required")], obj [("msg", str "too long")]])
      "[object Object],[object Object]" rfl rfl⟩

/-! ## The event loop: outstanding calls -/

theorem step_singleFlight (m : Machine) (e : Event) (he : e.isEnterSubmit = false)
    (h : SingleFlight m) : SingleFlight (step m e) := by
  cases e with
  | change value => exact h
  | keyDown key shiftKey =>
    have hk : (key == "Enter" && !shiftKey) = false := he
    simp only [step, handleEnter, hk]
    exact h
  | click =>
    simp only [step, clickSend]
    split
    · exact h
    · next hl =>
      rcases h with hp | ⟨hl', _⟩
      · rcases send_cases m with ⟨_, hs⟩ | ⟨_, hs⟩
        · rw [hs]
          exact Or.inl hp
        · rw [hs]
          exact Or.inr ⟨rfl, m.ui.message, by simp [hp]⟩
      · exact absurd hl' hl
  | settle i r =>
    simp only [step]
    split
    · exact h
    · next message hget =>
      rcases h with hp | ⟨_, x, hx⟩
      · simp [hp] at hget
      · left
        cases i with
        | zero => simp [hx]
        | succ j => simp [hx] at hget

/-- The guarded path: as long as no submission comes from the Enter key, at most one
`sendChatMessage` call is outstanding at any time. -/
theorem button_single_flight (events : List Event)
    (h : ∀ e ∈ events, e.isEnterSubmit = false) :
    (run Machine.initial events).pending.length ≤ 1 := by
  have key : ∀ (events : List Event) (m : Machine), SingleFlight m →
      (∀ e ∈ events, e.isEnterSubmit = false) → SingleFlight (run m events) := by
    intro events
    induction events with
    | nil => intro m hm _; exact hm
    | cons e rest ih =>
      intro m hm hev
      exact ih (step m e)
        (step_singleFlight m e (hev e (List.mem_cons_self _ _)) hm)
        (fun e' he' => hev e' (List.mem_cons_of_mem _ he'))
  rcases key events Machine.initial (Or.inl rfl) h with hp | ⟨_, x, hx⟩
  · simp [hp]
  · simp [hx]

/-! ## C3: a second submission while a request is in flight -/

/-- C3 fails on the code: after typing "hi", two presses of Enter (without shift) before
any response arrives leave two `sendChatMessage` calls outstanding; the key handler does
not consult the in-flight flag that disables the button. -/
theorem double_enter_two_outstanding :
    (run Machine.initial
        [.change "hi", .keyDown "Enter" false, .keyDown "Enter" false]).pending
      = ["hi", "hi"] ∧
    (run Machine.initial [.change "hi", .keyDown "Enter" false]).ui.loading = true ∧
    (run Machine.initial [.change "hi", .click, .click]).pending = ["hi"] := by
  refine ⟨by decide, by decide, by decide⟩

/-! ## C6: the in-flight flag while a call is pending -/

/-- C6 fails on the code. The message "first" is submitted from the idle state with the
send button: one call is outstanding and the in-flight flag is set. The user then types
"second" and presses Enter, which the key handler lets through; when the second call
settles before the first, `handleSend` clears the flag, and the call submitted from the
idle state is still pending with the flag false. Apart from that, when the call fails with
a value that has no string form, the `catch` block throws and the flag is never cleared. -/
theorem reentrant_settle_clears_flag :
    (run Machine.initial [.change "first"]).pending = [] ∧
    (run Machine.initial [.change "first"]).ui.loading = false ∧
    (run Machine.initial [.change "first", .click]).pending = ["first"] ∧
    (run Machine.initial [.change "first", .click]).ui.loading = true ∧
    (run Machine.initial
      [.change "first", .click, .change "second", .keyDown "Enter" false,
        .settle 1 (.fulfilled (obj [("data", obj [("reply", str "ok")])]))]).pending
      = ["first"] ∧
    (run Machine.initial
      [.change "first", .click, .change "second", .keyDown "Enter" false,
        .settle 1 (.fulfilled (obj [("data", obj [("reply", str "ok")])]))]).ui.loading
      = false ∧
    (run Machine.initial
      [.change "first", .click,
        .settle 0 (.rejected (obj [("response", obj [("data",
          obj [("error", obj [("toString", num (JSNumber.ofNat 1))])])])]))]).pending
      = [] ∧
    (run Machine.initial
      [.change "first", .click,
        .settle 0 (.rejected (obj [("response", obj [("data",
          obj [("error", obj [("toString", num (JSNumber.ofNat 1))])])])]))]).ui.loading
      = true := by
  refine ⟨by decide, by decide, by decide, by decide, by decide, by decide, by decide,
    by decide⟩

/-! ## Lemmas on rendered trees -/

/-- Searching a row of leaf cells: each cell is found or not according to its tag. -/
theorem elementsTaggedIn_cells {α : Type} (tags : List String) (t : String)
    (f : α → String) (l : List α) :
    elementsTaggedIn tags (l.map fun x => element t [] [text (f x)]) =
      if tags.contains t then l.map (fun x => element t [] [text (f x)]) else [] := by
  induction l with
  | nil => simp [elementsTaggedIn]
  | cons x rest ih =>
    simp only [List.map_cons, elementsTaggedIn, elementsTagged, ih]
    split <;> simp

/-- Searching the body rows for a tag that is neither `tr` nor `td` finds nothing. -/
theorem elementsTaggedIn_rows {α β : Type} (tags : List String)
    (htr : tags.contains "tr" = false) (htd : tags.contains "td" = false)
    (f : α → β → String) (rows : List α) (cols : List β) :
    elementsTaggedIn tags
      (rows.map fun row => element "tr" [] (cols.map fun col => element "td" [] [text (f row col)]))
      = [] := by
  induction rows with
  | nil => simp [elementsTaggedIn]
  | cons row rest ih =>
    simp only [List.map_cons, elementsTaggedIn, elementsTagged, ih, htr,
      elementsTaggedIn_cells tags "td" (f row) cols, htd]
    simp

/-- All children built with one tag are the children carrying that tag. -/
theorem childrenTagged_map {α : Type} (t t' : String) (ps : List (String × JSValue))
    (g : α → List (String × JSValue) × List Html) (l : List α) :
    childrenTagged t (element t' ps (l.map fun x => element t (g x).1 (g x).2)) =
      l.map fun x => element t (g x).1 (g x).2 := by
  simp only [childrenTagged, children]
  rw [List.filter_eq_self]
  intro c hc
  obtain ⟨x, _, rfl⟩ := List.mem_map.mp hc
  simp [tag?]

/-- The header cells and body cells of the tree `DataTable` builds. -/
theorem DataTable_cells (E : Engine) (first : Record) (rest : List Record) :
    ∃ h, DataTable E (some (first :: rest)) = some h ∧
      headerLabels h =
        (objectKeys first).map (fun k => toUpperCase E (replaceUnderscores k)) ∧
      bodyCells h =
        (first :: rest).map (fun row =>
          (objectKeys first).map (fun col => formatValue (readMember E row col))) := by
  refine ⟨_, rfl, ?_, ?_⟩
  · generalize objectKeys first = cols
    generalize first :: rest = rows
    have hrows := elementsTaggedIn_rows ["th"] (by decide) (by decide)
      (fun (row : Record) (col : String) => formatValue (readMember E row col)) rows cols
    have hcells := elementsTaggedIn_cells ["th"] "th"
      (fun k => toUpperCase E (replaceUnderscores k)) cols
    simp only [headerLabels, elementsTagged, elementsTaggedIn, hrows, hcells]
    simp [textContent, textContents]
  · generalize objectKeys first = cols
    generalize first :: rest = rows
    have hrows := elementsTaggedIn_rows ["tbody"] (by decide) (by decide)
      (fun (row : Record) (col : String) => formatValue (readMember E row col)) rows cols
    have hcells := elementsTaggedIn_cells ["tbody"] "th"
      (fun k => toUpperCase E (replaceUnderscores k)) cols
    have htr := childrenTagged_map "tr" "tbody" []
      (fun (row : Record) => (([] : List (String × JSValue)),
        cols.map fun col => element "td" [] [text (formatValue (readMember E row col))])) rows
    have htd : ∀ row : Record, childrenTagged "td" (element "tr" []
        (cols.map fun col => element "td" [] [text (formatValue (readMember E row col))])) =
        cols.map fun col => element "td" [] [text (formatValue (readMember E row col))] :=
      fun row => childrenTagged_map "td" "tr" []
        (fun (col : String) => (([] : List (String × JSValue)),
          [text (formatValue (readMember E row col))])) cols
    simp only [bodyCells, elementsTagged, elementsTaggedIn, hrows, hcells]
    simp only [List.contains, List.elem, show ("div" == "tbody") = false by decide,
      show ("table" == "tbody") = false by decide,
      show ("thead" == "tbody") = false by decide,
      show ("tr" == "tbody") = false by decide,
      show ("th" == "tbody") = false by decide,
      show ("tbody" == "tbody") = true by decide] at *
    simp [htr, htd, textContent, textContents]

/-- An upper-cased ASCII character is no underscore, once underscores are spaces. -/
theorem asciiUpper_ne_underscore (c : Char) :
    asciiUpper (if c = '_' then ' ' else c) ≠ '_' := by
  by_cases hc : c = '_'
  · simp only [hc, if_true]
    decide
  · simp only [hc, if_false, asciiUpper]
    split
    · next h =>
      intro heq
      have hv := congrArg (fun d : Char => d.val.toNat) heq
      simp only at hv
      obtain ⟨h1, h2⟩ := h
      generalize c.val.toNat = n at h1 h2 hv
      interval_cases n <;> revert hv <;> decide
    · exact hc

/-- The serialized elements of an array, element by element. -/
theorem serializeItems_eq (items : List JSValue) :
    serializeItems items = items.map fun v => (serialize v).getD "null".data := by
  induction items with
  | nil => rfl
  | cons v rest ih => simp [serializeItems, ih]

/-- The serialized members of an object: those whose value serializes, in order. -/
theorem serializeProps_eq (props : List (String × JSValue)) :
    serializeProps props =
      props.filterMap fun p => (serialize p.2).map fun t => quoteJSON p.1 ++ ':' :: t := by
  induction props with
  | nil => rfl
  | cons p rest ih =>
    obtain ⟨k, v⟩ := p
    simp only [serializeProps, List.filterMap_cons]
    cases h : serialize v <;> simp [ih]

/-- The label of a header cell whose key is in ASCII. -/
theorem label_ascii (E : Engine) (k : String) (h : ∀ c ∈ k.data, c.val.toNat < 128) :
    (toUpperCase E (replaceUnderscores k)).data =
      k.data.map (fun c => asciiUpper (if c = '_' then ' ' else c)) := by
  simp only [toUpperCase, replaceUnderscores]
  generalize k.data = l at h
  induction l with
  | nil => rfl
  | cons c rest ih =>
    have hc := h c (List.mem_cons_self _ _)
    have hrest := ih (fun d hd => h d (List.mem_cons_of_mem _ hd))
    have hc' : (if c = '_' then ' ' else c).val.toNat < 128 := by
      split
      · decide
      · exact hc
    simp only [List.map_cons, List.flatMap_cons, hc', if_true, List.singleton_append]
    rw [hrest]

/-! ## C9: the table -/

/-- C9: for every non-empty sequence of records, `DataTable` renders one header cell per
key of the first record, in key order, labelled with the key in which every underscore is
replaced by a space and the result upper-cased, and one body row per record, in input
order, with one cell per column in column order holding `formatValue(row[col])`;
`formatValue` maps null and absent values to the empty string, an object or array to its
JSON serialization and any other scalar to its string form. For empty or absent rows
`DataTable` renders nothing. The rows `[{account_name: "Acme", revenue: 100},
{account_name: "Globex", revenue: 200}]` give the headers ACCOUNT NAME, REVENUE and the
body rows Acme/100 and Globex/200. All of it holds for every engine, that is whatever the
case mappings outside ASCII and the members of `Object.prototype` are. -/
theorem DataTable_renders (E : Engine) (first : Record) (rest : List Record) :
    (∃ h, DataTable E (some (first :: rest)) = some h ∧
      headerLabels h =
        (first.map Prod.fst).map (fun k => toUpperCase E (replaceUnderscores k)) ∧
      bodyCells h =
        (first :: rest).map (fun row =>
          (first.map Prod.fst).map (fun col => formatValue (readMember E row col)))) ∧
    ((∀ k : String,
        (replaceUnderscores k).data = k.data.map (fun c => if c = '_' then ' ' else c)) ∧
      (∀ s : String, (toUpperCase E s).data =
        s.data.flatMap (fun c =>
          if c.val.toNat < 128 then
            [if 97 ≤ c.val.toNat ∧ c.val.toNat ≤ 122 then Char.ofNat (c.val.toNat - 32)
              else c]
          else E.upperCase c)) ∧
      (∀ k : String, (∀ c ∈ k.data, c.val.toNat < 128) →
        (toUpperCase E (replaceUnderscores k)).data =
          k.data.map (fun c => asciiUpper (if c = '_' then ' ' else c)) ∧
        '_' ∉ (toUpperCase E (replaceUnderscores k)).data)) ∧
    ((∀ row col, hasOwn col row = true →
        readMember E row col = .value (lookupProp col row)) ∧
      (∀ row col, hasOwn col row = false →
        readMember E row col = (E.inherited col).getD (.value undefined)) ∧
      (∀ row col, hasOwn col row = false → E.inherited col = none →
        formatValue (readMember E row col) = "") ∧
      (∀ (k : String) (row : Record), hasOwn k row = true ↔ k ∈ row.map Prod.fst) ∧
      (∀ k, lookupProp k [] = undefined) ∧
      (∀ k v rest, lookupProp k ((k, v) :: rest) = v) ∧
      (∀ k k' v rest, k' ≠ k → lookupProp k ((k', v) :: rest) = lookupProp k rest)) ∧
    (formatValue (.value null) = "" ∧ formatValue (.value undefined) = "" ∧
      (∀ s, formatValue (.value (str s)) = s) ∧
      (∀ n, formatValue (.value (num n)) = n.text) ∧
      formatValue (.value (.bool true)) = "true" ∧
      formatValue (.value (.bool false)) = "false" ∧
      (∀ source, formatValue (.builtin source) = source) ∧
      (∀ items, (formatValue (.value (arr items))).data =
        '[' :: [','].intercalate (items.map fun v => (serialize v).getD "null".data)
          ++ [']']) ∧
      (∀ props, (formatValue (.value (obj props))).data =
        Char.ofNat 123 :: [','].intercalate (props.filterMap fun p =>
          (serialize p.2).map fun t =>
            (Char.ofNat 34 :: p.1.data.flatMap escapeChar ++ [Char.ofNat 34]) ++ ':' :: t)
          ++ [Char.ofNat 125])) ∧
    (serialize undefined = none ∧ serialize null = some "null".data ∧
      serialize (.bool true) = some "true".data ∧
      serialize (.bool false) = some "false".data ∧
      (∀ n, serialize (num n) = some (if n.finite then n.text.data else "null".data)) ∧
      (∀ s, serialize (str s) =
        some (Char.ofNat 34 :: s.data.flatMap escapeChar ++ [Char.ofNat 34])) ∧
      (∀ items, serialize (arr items) = some (formatValue (.value (arr items))).data) ∧
      (∀ props, serialize (obj props) = some (formatValue (.value (obj props))).data)) ∧
    (escapeChar (Char.ofNat 34) = [Char.ofNat 92, Char.ofNat 34] ∧
      escapeChar (Char.ofNat 92) = [Char.ofNat 92, Char.ofNat 92] ∧
      escapeChar (Char.ofNat 8) = [Char.ofNat 92, 'b'] ∧
      escapeChar (Char.ofNat 9) = [Char.ofNat 92, 't'] ∧
      escapeChar (Char.ofNat 10) = [Char.ofNat 92, 'n'] ∧
      escapeChar (Char.ofNat 12) = [Char.ofNat 92, 'f'] ∧
      escapeChar (Char.ofNat 13) = [Char.ofNat 92, 'r'] ∧
      escapeChar (Char.ofNat 1) = [Char.ofNat 92, 'u', '0', '0', '0', '1'] ∧
      escapeChar (Char.ofNat 11) = [Char.ofNat 92, 'u', '0', '0', '0', 'b'] ∧
      escapeChar (Char.ofNat 31) = [Char.ofNat 92, 'u', '0', '0', '1', 'f'] ∧
      (List.range 16).map hexDigit = "0123456789abcdef".data ∧
      (∀ c : Char, c.val.toNat < 32 → c.val.toNat ∉ [8, 9, 10, 12, 13] →
        escapeChar c = [Char.ofNat 92, 'u', '0', '0', hexDigit (c.val.toNat / 16),
          hexDigit (c.val.toNat % 16)]) ∧
      (∀ c : Char, 32 ≤ c.val.toNat → c.val.toNat ≠ 34 → c.val.toNat ≠ 92 →
        escapeChar c = [c])) ∧
    (DataTable E none = none ∧ DataTable E (some []) = none) ∧
    (∃ h, DataTable E (some [[("account_name", str "Acme"),
          ("revenue", num (JSNumber.ofNat 100))],
        [("account_name", str "Globex"), ("revenue", num (JSNumber.ofNat 200))]]) = some h ∧
      headerLabels h = ["ACCOUNT NAME", "REVENUE"] ∧
      bodyCells h = [["Acme", "100"], ["Globex", "200"]]) ∧
    (formatValue (.value (obj [("a", num (JSNumber.ofNat 1)), ("u", undefined),
        ("b", arr [str "x\"y", undefined, .bool true, null,
          num { falsy := false, finite := true, text := "1.5" },
          num { falsy := true, finite := false, text := "NaN" }, arr [], obj []])]))
      = "\x7b\"a\":1,\"b\":[\"x\\\"y\",null,true,null,1.5,null,[],\x7b\x7d]\x7d") := by
  refine ⟨DataTable_cells E first rest, ⟨fun _ => rfl, fun _ => rfl, ?_⟩,
    ⟨?_, ?_, ?_, ?_, fun _ => rfl, ?_, ?_⟩,
    ⟨rfl, rfl, fun _ => rfl, fun _ => rfl, rfl, rfl, fun _ => rfl, ?_, ?_⟩,
    ⟨rfl, rfl, rfl, rfl, fun _ => rfl, fun _ => rfl, ?_, ?_⟩,
    ⟨by decide, by decide, by decide, by decide, by decide, by decide, by decide,
      by decide, by decide, by decide, by decide, ?_, ?_⟩,
    ⟨rfl, rfl⟩, ⟨_, rfl, by rfl, by rfl⟩, by rfl⟩
  · intro k hk
    have hdata := label_ascii E k hk
    refine ⟨hdata, ?_⟩
    rw [hdata]
    intro hmem
    obtain ⟨c, _, hc⟩ := List.mem_map.mp hmem
    exact asciiUpper_ne_underscore c hc
  · intro row col h
    simp [readMember, h]
  · intro row col h
    simp [readMember, h]
  · intro row col h hn
    simp [readMember, h, hn, formatValue]
  · intro k row
    simp [hasOwn]
  · intro k v rest
    simp [lookupProp]
  · intro k k' v rest hne
    simp [lookupProp, hne]
  · intro items
    simp [formatValue, JSONstringify, serialize, serializeItems_eq]
  · intro props
    simp [formatValue, JSONstringify, serialize, serializeProps_eq, quoteJSON]
  · intro items
    simp [formatValue, JSONstringify, serialize]
  · intro props
    simp [formatValue, JSONstringify, serialize]
  · intro c h1 h2
    simp only [List.mem_cons, List.mem_singleton, not_or, List.not_mem_nil,
      or_false] at h2
    obtain ⟨h8, h9, h10, h12, h13⟩ := h2
    have h34 : c.val.toNat ≠ 34 := by omega
    have h92 : c.val.toNat ≠ 92 := by omega
    simp [escapeChar, h34, h92, h8, h9, h10, h12, h13, h1]
  · intro c h1 h34 h92
    have h8 : c.val.toNat ≠ 8 := by omega
    have h9 : c.val.toNat ≠ 9 := by omega
    have h10 : c.val.toNat ≠ 10 := by omega
    have h12 : c.val.toNat ≠ 12 := by omega
    have h13 : c.val.toNat ≠ 13 := by omega
    have h32 : ¬ c.val.toNat < 32 := by omega
    simp [escapeChar, h34, h92, h8, h9, h10, h12, h13, h32]

/-! ## C10: the chart -/

/-- The type after the default is "line" exactly when the prop is "line". -/
theorem type_line_iff (v : JSValue) :
    isString (withDefault v (str "bar")) "line" = true ↔ v = str "line" := by
  cases v <;> simp [isString, withDefault]

/-- The test `!data?.length` on a sequence of records. -/
theorem truthy_length (rows : List Record) :
    truthy (optChain (rowsValue rows) "length") = !rows.isEmpty := by
  cases rows with
  | nil => rfl
  | cons first rest =>
    simp [rowsValue, optChain, nullish, getProp, truthy, JSNumber.ofNat]

/-- C10, as stated, fails: with one record whose keys are the empty string and `v`, and
the spec `xKey = ""`, `yKey = "v"`, neither key is missing, yet `DataChart` renders the
fallback notice and draws no series. -/
theorem DataChart_empty_xKey :
    nullish (str "") = false ∧ nullish (str "v") = false ∧
    hasOwn "" [("", str "Jan"), ("v", num (JSNumber.ofNat 3))] = true ∧
    hasOwn "v" [("", str "Jan"), ("v", num (JSNumber.ofNat 3))] = true ∧
    DataChart { data := some [[("", str "Jan"), ("v", num (JSNumber.ofNat 3))]], xKey := str "",
                yKey := str "v", type := str "bar" }
      = some (element "p" [] [text "Chart requires xKey and yKey."]) ∧
    (DataChart { data := some [[("", str "Jan"), ("v", num (JSNumber.ofNat 3))]], xKey := str "",
                 yKey := str "v", type := str "bar" }).map seriesOf = some [] := by
  refine ⟨rfl, rfl, by decide, by decide, rfl, rfl⟩

/-- C10, amended: for every chart spec, if `data` is empty or absent `DataChart` renders
nothing; otherwise, if `xKey` or `yKey` is falsy (absent, null, the empty string, zero,
false) it renders the textual fallback notice, which holds no chart and no series;
otherwise (both truthy) it draws exactly one series, a monotone line series when `type`
is "line" and a bar series for every other `type`, the absent one included. -/
theorem DataChart_output (props : ChartProps) :
    ((props.data = none ∨ props.data = some []) → DataChart props = none) ∧
    (∀ first rest, props.data = some (first :: rest) →
      ((truthy props.xKey = false ∨ truthy props.yKey = false) →
        DataChart props = some (element "p" [] [text "Chart requires xKey and yKey."])) ∧
      (truthy props.xKey = true → truthy props.yKey = true →
        ∃ h, DataChart props = some h ∧
          (props.type = str "line" →
            chartsOf h = [element "LineChart" [("data", rowsValue (first :: rest))]
              (chartFrame props.xKey props.yKey ++
                [element "Line" [("type", str "monotone"), ("dataKey", props.yKey),
                  ("stroke", str "#007aff")] []])] ∧
            seriesOf h = [element "Line" [("type", str "monotone"),
              ("dataKey", props.yKey), ("stroke", str "#007aff")] []]) ∧
          (props.type ≠ str "line" →
            chartsOf h = [element "BarChart" [("data", rowsValue (first :: rest))]
              (chartFrame props.xKey props.yKey ++
                [element "Bar" [("dataKey", props.yKey), ("fill", str "#007aff")] []])] ∧
            seriesOf h = [element "Bar" [("dataKey", props.yKey),
              ("fill", str "#007aff")] []]))) ∧
    (chartsOf (element "p" [] [text "Chart requires xKey and yKey."]) = [] ∧
      seriesOf (element "p" [] [text "Chart requires xKey and yKey."]) = []) := by
  refine ⟨?_, ?_, ⟨rfl, rfl⟩⟩
  · intro h
    have hd : props.data.getD [] = [] := by
      rcases h with h | h <;> rw [h] <;> rfl
    simp [DataChart, hd, truthy_length]
  · intro first rest hdata
    have hd : props.data.getD [] = first :: rest := by rw [hdata]; rfl
    refine ⟨?_, ?_⟩
    · intro hk
      have hk' : (!truthy props.xKey || !truthy props.yKey) = true := by
        rcases hk with h | h <;> simp [h]
      simp only [DataChart, hd, truthy_length, List.isEmpty_cons, Bool.not_false,
        Bool.not_true, Bool.false_eq_true, if_false, hk', if_true]
    · intro hx hy
      have hk' : (!truthy props.xKey || !truthy props.yKey) = false := by simp [hx, hy]
      by_cases ht : props.type = str "line"
      · have hl := (type_line_iff props.type).mpr ht
        refine ⟨_, by
          simp only [DataChart, hd, truthy_length, List.isEmpty_cons, Bool.not_false,
            Bool.not_true, Bool.false_eq_true, if_false, hk', hl, if_true]
          rfl, ?_, ?_⟩
        · intro _
          exact ⟨rfl, rfl⟩
        · intro hne
          exact absurd ht hne
      · have hl : isString (withDefault props.type (str "bar")) "line" = false := by
          cases h : isString (withDefault props.type (str "bar")) "line"
          · rfl
          · exact absurd ((type_line_iff props.type).mp h) ht
        refine ⟨_, by
          simp only [DataChart, hd, truthy_length, List.isEmpty_cons, Bool.not_false,
            Bool.not_true, Bool.false_eq_true, if_false, hk', hl]
          rfl, ?_, ?_⟩
        · intro heq
          exact absurd heq ht
        · intro _
          exact ⟨rfl, rfl⟩

/-- Witness for C10 (amended): the rows of the table example with `xKey = account_name`
and `yKey = revenue` give one bar series when `type` is absent and one monotone line
series when it is "line"; without `xKey` the notice is rendered; without data, nothing. -/
theorem DataChart_output_witness :
    (∃ h, DataChart (ChartProps.mk (some [[("account_name", str "Acme"), ("revenue", num (JSNumber.ofNat 100))]])
          (str "account_name") (str "revenue") (undefined)) = some h ∧
        seriesOf h = [element "Bar" [("dataKey", str "revenue"), ("fill", str "#007aff")] []]) ∧
    (∃ h, DataChart (ChartProps.mk (some [[("account_name", str "Acme"), ("revenue", num (JSNumber.ofNat 100))]])
          (str "account_name") (str "revenue") (str "line")) = some h ∧
        seriesOf h = [element "Line" [("type", str "monotone"), ("dataKey", str "revenue"),
          ("stroke", str "#007aff")] []]) ∧
    DataChart (ChartProps.mk (some [[("account_name", str "Acme"), ("revenue", num (JSNumber.ofNat 100))]])
          (undefined) (str "revenue") (undefined))
      = some (element "p" [] [text "Chart requires xKey and yKey."]) ∧
    DataChart (ChartProps.mk (none)
          (str "account_name") (str "revenue") (undefined)) = none :=
  ⟨(((DataChart_output
        (ChartProps.mk (some [[("account_name", str "Acme"), ("revenue", num (JSNumber.ofNat 100))]])
          (str "account_name") (str "revenue") (undefined))).2.1
        _ _ rfl).2 rfl rfl).imp
      fun _ h => ⟨h.1, (h.2.2 (fun heq => JSValue.noConfusion heq)).2⟩,
   (((DataChart_output
        (ChartProps.mk (some [[("account_name", str "Acme"), ("revenue", num (JSNumber.ofNat 100))]])
          (str "account_name") (str "revenue") (str "line"))).2.1
        _ _ rfl).2 rfl rfl).imp
      fun _ h => ⟨h.1, (h.2.1 rfl).2⟩,
   ((DataChart_output
        (ChartProps.mk (some [[("account_name", str "Acme"), ("revenue", num (JSNumber.ofNat 100))]])
          (undefined) (str "revenue") (undefined))).2.1
        _ _ rfl).1 (Or.inl rfl),
   (DataChart_output (ChartProps.mk (none)
          (str "account_name") (str "revenue") (undefined))).1 (Or.inl rfl)⟩

end CRM
